import Mathlib

/- Verification of the provisioning pipeline in testing.py against its
specification.  The script is embedded shallowly: each Python helper becomes a
Lean function, the top-level script becomes a state-passing program over an
explicit trace of external effects, and the outside world (the stdout of each
external command, liveness of the validator process, the files present at
cleanup time) is supplied by an environment record. -/

/-! ## Python string primitives

These are written as structural recursion over the character list of a string
so that every definition reduces inside the kernel. -/

/-- Split a character list at every character satisfying p, keeping empty
pieces (the behaviour of splitting on a one-character separator). -/
def splitChars (p : Char → Bool) : List Char → List (List Char)
  | [] => [[]]
  | c :: cs =>
    let r := splitChars p cs
    if p c then [] :: r
    else
      match r with
      | [] => [[c]]
      | t :: ts => (c :: t) :: ts

/-- Python str.strip(): drop whitespace from both ends (ASCII whitespace,
which covers every input used here). -/
def pyStrip (s : String) : String :=
  String.mk
    (((s.data.dropWhile fun c => c.isWhitespace).reverse.dropWhile
        fun c => c.isWhitespace).reverse)

/-- Python str.split() with no separator: split on whitespace, dropping the
empty pieces, so that runs of whitespace count as one separator. -/
def pySplitWS (s : String) : List String :=
  ((splitChars (fun c => c.isWhitespace) s.data).filter fun t => t ≠ []).map String.mk

/-- Python str.split("\n"): split on line feeds, keeping empty pieces. -/
def pySplitNL (s : String) : List String :=
  (splitChars (fun c => c == '\n') s.data).map String.mk

/-- Exceptions the script can raise.  Neither constructor carries a payload,
mirroring the fact that the Python exceptions raised here (IndexError from
list indexing, FileNotFoundError from os.remove) are not given any argument
derived from the pipeline's data. -/
inductive PyExn where
  | indexError
  | fileNotFoundError
  deriving DecidableEq

deriving instance DecidableEq for Except

/-! ## Constants (testing.py lines 6-10) -/

def TOKEN_2022 : String := "TokenzQdBNbLqP5VEhdkAS6EPFLC1PHnBqCXEpPxuEb"

def TOKEN : String := "TokenkegQfeZyiNwAJbNbGKPFXCWuBvf9Ss623VQ5DA"

def subfolder_path : String := "program/tests/fixtures"

/-- test_path = os.path.join(current_dir, subfolder_path). -/
def test_path (cwd : String) : String := cwd ++ "/" ++ subfolder_path

/-- Path of an identity file: f-string pattern current_dir/keypair.json. -/
def keypairPath (cwd keypair : String) : String := cwd ++ "/" ++ keypair ++ ".json"

/-! ## Output extraction (the inline parse chains of testing.py) -/

/-- The parse chain of create_mint, create_token_account and create_whitelist:
stdout.strip().split("\n")[0].split()[2].strip().  Indexing a Python list out
of range raises IndexError, modelled as the error case. -/
def address_extract (raw : String) : Except PyExn String :=
  match (pySplitWS ((pySplitNL (pyStrip raw)).headD "")).get? 2 with
  | some tok => Except.ok (pyStrip tok)
  | none => Except.error PyExn.indexError

/-- The parse chain of create_ticket: stdout.strip().split()[1].strip(). -/
def ticket_extract (raw : String) : Except PyExn String :=
  match (pySplitWS (pyStrip raw)).get? 1 with
  | some tok => Except.ok (pyStrip tok)
  | none => Except.error PyExn.indexError

/-! ## Command construction -/

/-- create_mint's command list (testing.py lines 83-97): built with an empty
program-id slot, then command[3] is assigned from the token_program value. -/
def create_mint_command (cwd : String) (token_program : Option Int) : List String :=
  (["spl-token", "create-token", "--program-id", "",
    "--fee-payer", keypairPath cwd "payer",
    "--mint-authority", keypairPath cwd "payer"]).set 3
    (if token_program == some 2022 then TOKEN_2022 else TOKEN)

/-- create_token_account's command list (testing.py lines 113-128). -/
def create_token_account_command (cwd mint_address owner_address : String)
    (token_program : Option Int) : List String :=
  (["spl-token", "create-account", "--program-id", "",
    "--fee-payer", keypairPath cwd "payer",
    "--owner", owner_address, mint_address]).set 3
    (if token_program == some 2022 then TOKEN_2022 else TOKEN)

/-- create_whitelist's command list (testing.py lines 179-189). -/
def create_whitelist_command (cwd mint_address wallet_address : String) : List String :=
  ["fsp-wl", "--payer", keypairPath cwd "payer", "init",
   mint_address, wallet_address, "1", "10", "5"]

/-- create_ticket's command list (testing.py lines 152-158). -/
def create_ticket_command (cwd mint_address : String) : List String :=
  ["fsp-wl", "--payer", keypairPath cwd "payer", "register", mint_address]

/-- allow_registration's command list (testing.py lines 211-218). -/
def allow_registration_command (cwd mint_address : String) : List String :=
  ["fsp-wl", "--payer", keypairPath cwd "payer", "allow-register", mint_address, "true"]

/-- generate_account_binary's command list (testing.py lines 223-229): the
output file is named after the registry key (bin_name), not the address. -/
def generate_account_binary_command (cwd bin_name account : String) : List String :=
  ["solana", "account", account, "--output-file",
   test_path cwd ++ "/" ++ bin_name ++ ".bin"]

/-- The snapshot-export loop (testing.py lines 319-320): one account-dump
command per registry entry, in registry order. -/
def export_commands (cwd : String) (registry : List (String × String)) : List (List String) :=
  registry.map fun kv => generate_account_binary_command cwd kv.1 kv.2

/-- Projection used to talk about the file a dump command writes. -/
def output_file_of (cmd : List String) : Option String := cmd.get? 4

/-! ## Source patching (testing.py lines 238-241)

The effective sed program, after shell quoting, is
/declare_id!/c\declare_id!("<program_id>");
which replaces each line containing the marker with the new declaration and
leaves every other line unchanged.  sed exits with status 0 whether or not any
line matched, and the script discards the os.system return value. -/

def declare_marker : String := "declare_id!"

/-- Does one character list start with another? -/
def listLead : List Char → List Char → Bool
  | [], _ => true
  | _ :: _, [] => false
  | a :: as, b :: bs => a == b && listLead as bs

/-- Does the needle occur anywhere in the haystack? -/
def listHasSub (needle : List Char) : List Char → Bool
  | [] => listLead needle []
  | c :: tl => listLead needle (c :: tl) || listHasSub needle tl

/-- Substring test on strings (what the sed address /declare_id!/ checks,
since the marker contains no regex metacharacter). -/
def strContains (hay needle : String) : Bool := listHasSub needle.data hay.data

/-- Effect of the sed c-command on one line of program/src/lib.rs. -/
def sed_c_line (program_id line : String) : String :=
  if strContains line declare_marker then "declare_id!(\"" ++ program_id ++ "\");"
  else line

/-- Effect of the sed invocation on the whole file, as a list of lines. -/
def patch_lib_rs (program_id : String) (lines : List String) : List String :=
  lines.map (sed_c_line program_id)

/-- Exit status of the sed invocation on an existing file: 0 whether or not any
line matched the address; the script ignores it in any case. -/
def sed_exit_status (program_id : String) (lines : List String) : Nat := 0

/-- The exact string passed to os.system (search_string spliced into the
f-string; the apostrophes around declare_id! in search_string close and reopen
the shell quoting). -/
def search_string : String := "\x27declare_id!\x27"

def sed_command (cwd program_id : String) : String :=
  "sed -i \x27/" ++ search_string ++ "/c\\declare_id!(\"" ++ program_id ++
    "\");\x27 " ++ cwd ++ "/program/src/lib.rs"

/-! ## Validator startup (testing.py lines 48-71) -/

/-- State of the spawned solana-test-validator process at the single poll after
the 2-second warm-up. -/
structure ProcState where
  alive : Bool
  stdoutText : String
  stderrText : String
  deriving DecidableEq

/-- Popen is called with stdout=DEVNULL and stderr=DEVNULL, so communicate()
returns None for both streams no matter what the process wrote. -/
def capture_devnull (procText : String) : Option String := none

/-- Python rendering of an optional string inside an f-string. -/
def pyShowOpt : Option String → String
  | none => "None"
  | some s => s

inductive StartResult where
  | running
  | failed (diag : List String) (exitCode : Nat)
  deriving DecidableEq

/-- start_validator's poll: alive means running; otherwise the script prints a
diagnostic built from the DEVNULL-captured streams and exits with status 1. -/
def start_validator (p : ProcState) : StartResult :=
  match p.alive with
  | true => StartResult.running
  | false => StartResult.failed
      ["Failed to start Solana test validator",
       "STDOUT: " ++ pyShowOpt (capture_devnull p.stdoutText),
       "STDERR: " ++ pyShowOpt (capture_devnull p.stderrText)] 1

/-! ## os.remove (testing.py lines 325-328) -/

/-- os.remove on a file-system state given as the list of existing paths:
removing an absent file raises FileNotFoundError. -/
def os_remove (fs : List String) (path : String) : Except PyExn (List String) :=
  if path ∈ fs then Except.ok (fs.filter fun p => p ≠ path)
  else Except.error PyExn.fileNotFoundError

/-! ## The final prompt gate (testing.py lines 340-346) -/

/-- Python values occurring in the gate expression. -/
inductive PyVal where
  | vBool (b : Bool)
  | vStr (s : String)
  deriving DecidableEq

/-- Python truthiness of those values: a string is truthy iff non-empty. -/
def pyTruthy : PyVal → Bool
  | PyVal.vBool b => b
  | PyVal.vStr s => s != ""

/-- Python's short-circuit or: the first operand if truthy, else the second. -/
def pyOr (a b : PyVal) : PyVal := if pyTruthy a then a else b

/-- The gate expression of line 341, with Python's precedence:
(validator_tests == "Y") or "y" or "yes". -/
def gateExpr (validator_tests : String) : PyVal :=
  pyOr (pyOr (PyVal.vBool (validator_tests == "Y")) (PyVal.vStr "y")) (PyVal.vStr "yes")

theorem gate_always_true (s : String) : pyTruthy (gateExpr s) = true := by
  by_cases h : (s == "Y") = true <;>
    simp [gateExpr, pyOr, pyTruthy, h]

/-! ## The top-level script as a trace-producing program

Each external effect of testing.py becomes an event.  The script is a function
from a run state (trace so far plus the accounts dict) to an outcome and a new
state; a Python exception or an explicit exit() halts the remaining script, as
the source has no try/finally. -/

inductive Event where
  | printed (s : String)
  | spawned (cmd : List String)
  | ranCommand (cmd : List String)
  | osSystem (cmd : String)
  | removedFile (path : String)
  | prompted (msg : String)
  deriving DecidableEq

inductive Halt where
  | exited (code : Nat)
  | uncaught (e : PyExn)
  deriving DecidableEq

structure RunState where
  events : List Event
  accounts : List (String × String)
  deriving DecidableEq

def initState : RunState := { events := [], accounts := [] }

def Script (α : Type) : Type := RunState → Except Halt α × RunState

/-- Sequencing: a halt in the first part skips the rest, keeping the trace. -/
def sbind {α β : Type} (x : Script α) (f : α → Script β) : Script β := fun s =>
  match x s with
  | (Except.ok a, s1) => f a s1
  | (Except.error h, s1) => (Except.error h, s1)

def spure {α : Type} (a : α) : Script α := fun s => (Except.ok a, s)

def semit (evs : List Event) : Script Unit := fun s =>
  (Except.ok (), { s with events := s.events ++ evs })

/-- Evaluating one of the inline parse chains: an IndexError propagates as an
uncaught exception. -/
def sparse (v : Except PyExn String) : Script String := fun s =>
  match v with
  | Except.ok a => (Except.ok a, s)
  | Except.error e => (Except.error (Halt.uncaught e), s)

/-- Python dict assignment: overwrite in place if the key exists, else append
at the end (dicts preserve insertion order). -/
def dictInsert : List (String × String) → String → String → List (String × String)
  | [], k, v => [(k, v)]
  | p :: ps, k, v => if p.1 == k then (k, v) :: ps else p :: dictInsert ps k v

def sinsert (k v : String) : Script Unit := fun s =>
  (Except.ok (), { s with accounts := dictInsert s.accounts k v })

def shalt {α : Type} (h : Halt) : Script α := fun s => (Except.error h, s)

/-- os.remove inside the cleanup block: FileNotFoundError if the file is among
the paths absent at cleanup time (supplied by the environment). -/
def os_removeS (absent : List String) (path : String) : Script Unit := fun s =>
  match absent.contains path with
  | true => (Except.error (Halt.uncaught PyExn.fileNotFoundError), s)
  | false => (Except.ok (), { s with events := s.events ++ [Event.removedFile path] })

/-! ### The individual script functions -/

def create_keypairS (cwd keypair : String) : Script Unit :=
  semit [Event.printed ("Generating " ++ keypair ++ " keypair..."),
         Event.spawned ["solana-keygen", "new", "--force", "--no-bip39-passphrase",
                        "--outfile", keypairPath cwd keypair],
         Event.printed (keypair ++ " keypair generated")]

def get_addressS (cwd keypair stdout : String) : Script String :=
  sbind (semit [Event.ranCommand ["solana", "address", "-k", keypairPath cwd keypair]])
    fun _ => spure (pyStrip stdout)

def install_programS (cwd name : String) : Script Unit :=
  semit [Event.ranCommand ["cargo", "build", "--release", "--manifest-path",
                           cwd ++ "/" ++ name ++ "/Cargo.toml"],
         Event.ranCommand ["cargo", "install", "--path", cwd ++ "/" ++ name]]

def start_validatorS (p : ProcState) (wallet_address : String) : Script Unit :=
  sbind (semit [Event.printed "Starting validator in the background...",
                Event.spawned ["solana-test-validator", "--reset", "--mint", wallet_address]])
    fun _ =>
  match start_validator p with
  | StartResult.running =>
      semit [Event.printed "Solana test validator is running in the background",
             Event.printed "Validator running"]
  | StartResult.failed diag code =>
      sbind (semit (diag.map Event.printed)) fun _ => shalt (Halt.exited code)

def create_mintS (cwd keypair : String) (token_program : Option Int) (stdout : String) :
    Script String :=
  sbind (semit [Event.ranCommand (create_mint_command cwd token_program)]) fun _ =>
  sbind (sparse (address_extract stdout)) fun mint =>
  sbind (semit [Event.printed (keypair ++ " address: " ++ mint)]) fun _ =>
  spure mint

/-- Python rendering of the token_program value in an f-string. -/
def pyShowTokenProgram : Option Int → String
  | some n => toString n
  | none => "None"

def token_account_message (mint owner : String) (tp : Option Int) (ta : String) : String :=
  "\nToken account for: " ++ mint ++ "\nWith owner: " ++ owner ++
    " \nUsing token program: " ++ pyShowTokenProgram tp ++
    " \nGenerated with address: " ++ ta

def create_token_accountS (cwd mint_address owner_address : String)
    (token_program : Option Int) (stdout : String) : Script String :=
  sbind (semit [Event.ranCommand
      (create_token_account_command cwd mint_address owner_address token_program)]) fun _ =>
  sbind (sparse (address_extract stdout)) fun ta =>
  sbind (semit [Event.printed (token_account_message mint_address owner_address token_program ta)])
    fun _ =>
  spure ta

def create_whitelistS (cwd mint_address wallet_address stdout : String) : Script String :=
  sbind (semit [Event.ranCommand (create_whitelist_command cwd mint_address wallet_address)])
    fun _ =>
  sbind (sparse (address_extract stdout)) fun wl =>
  sbind (semit [Event.printed ("\nWhitelist address for token: " ++ mint_address ++
      ",\nWith owner: " ++ wallet_address ++ ",\nGenerated with address: " ++ wl)]) fun _ =>
  spure wl

def create_ticketS (cwd mint_address wallet_address stdout : String) : Script String :=
  sbind (semit [Event.ranCommand (create_ticket_command cwd mint_address)]) fun _ =>
  sbind (sparse (ticket_extract stdout)) fun ticket =>
  sbind (semit [Event.printed ("\nTicket for: " ++ wallet_address ++
      ", \nFor whitelist initialised with mint: " ++ mint_address ++
      " \nGenerated with address: " ++ ticket)]) fun _ =>
  spure ticket

def allow_registrationS (cwd mint_address : String) : Script Unit :=
  semit [Event.ranCommand (allow_registration_command cwd mint_address)]

/-- The export loop: one dump command per accounts entry, in dict order. -/
def exportAllS (cwd : String) : Script Unit := fun s =>
  (Except.ok (),
   { s with events := s.events ++
       (s.accounts.map fun kv => Event.ranCommand (generate_account_binary_command cwd kv.1 kv.2)) })

def prompt_message : String := "Would you like to run local validator tests?[Y/n]:"

def promptS (input : String) : Script Unit :=
  sbind (semit [Event.prompted prompt_message]) fun _ =>
  match pyTruthy (gateExpr input) with
  | true => semit [Event.printed "Starting validator tests..."]
  | false =>
      sbind (semit [Event.printed "Testing completed"]) fun _ => shalt (Halt.exited 0)

/-! ### Environment and the whole script -/

/-- Everything the outside world decides during one run: the working
directory, the stdout of each parsed external command, the validator process
state at the poll, the identity files already absent when cleanup runs, and
the line typed at the final prompt. -/
structure Env where
  cwd : String
  addrTestPid : String
  addrPayer : String
  validator : ProcState
  mintOut2022 : String
  mintOut : String
  wtaOut2022 : String
  wtaOut : String
  wlOut2022 : String
  wlOut : String
  vaultOut2022 : String
  vaultOut : String
  ticketOut2022 : String
  ticketOut : String
  ttaOut2022 : String
  ttaOut : String
  absentAtCleanup : List String
  promptInput : String
  deriving DecidableEq

/-- The top-level statements of testing.py lines 9-346, in source order. -/
def mainScript (env : Env) : Script Unit :=
  sbind (semit [Event.printed ("Current working directory: " ++ env.cwd),
                Event.printed ("Target for account binaries: " ++ test_path env.cwd)]) fun _ =>
  sbind (create_keypairS env.cwd "test-pid") fun _ =>
  sbind (get_addressS env.cwd "test-pid" env.addrTestPid) fun program_id =>
  sbind (semit [Event.printed "Replacing program id before compilation",
                Event.osSystem (sed_command env.cwd program_id)]) fun _ =>
  sbind (create_keypairS env.cwd "payer") fun _ =>
  sbind (get_addressS env.cwd "payer" env.addrPayer) fun wallet_address =>
  sbind (create_keypairS env.cwd "mint_2022") fun _ =>
  sbind (create_keypairS env.cwd "mint") fun _ =>
  sbind (create_keypairS env.cwd "whitelist") fun _ =>
  sbind (start_validatorS env.validator wallet_address) fun _ =>
  sbind (semit [Event.ranCommand ["cargo", "build-bpf", "--manifest-path",
                  env.cwd ++ "/program/Cargo.toml"],
                Event.ranCommand ["solana", "program", "deploy",
                  env.cwd ++ "/program/target/deploy/fsp_wl.so",
                  "--program-id", keypairPath env.cwd "test-pid",
                  "--fee-payer", keypairPath env.cwd "payer"],
                Event.ranCommand ["cargo", "build", "--release", "--manifest-path",
                  env.cwd ++ "/cli/Cargo.toml"]]) fun _ =>
  sbind (install_programS env.cwd "blink") fun _ =>
  sbind (create_mintS env.cwd "mint_2022" (some 2022) env.mintOut2022) fun mint2022 =>
  sbind (sinsert "mint_2022" mint2022) fun _ =>
  sbind (create_mintS env.cwd "mint" none env.mintOut) fun mint =>
  sbind (sinsert "mint" mint) fun _ =>
  sbind (create_token_accountS env.cwd mint2022 wallet_address (some 2022) env.wtaOut2022)
    fun wta2022 =>
  sbind (sinsert "wallet_token_account_2022" wta2022) fun _ =>
  sbind (create_token_accountS env.cwd mint wallet_address none env.wtaOut) fun wta =>
  sbind (sinsert "wallet_token_account" wta) fun _ =>
  sbind (create_whitelistS env.cwd mint2022 wallet_address env.wlOut2022) fun wl2022 =>
  sbind (sinsert "whitelist_2022" wl2022) fun _ =>
  sbind (create_whitelistS env.cwd mint wallet_address env.wlOut) fun wl =>
  sbind (sinsert "whitelist" wl) fun _ =>
  sbind (create_token_accountS env.cwd mint2022 wl2022 (some 2022) env.vaultOut2022)
    fun vault2022 =>
  sbind (sinsert "vault_2022" vault2022) fun _ =>
  sbind (create_token_accountS env.cwd mint wl none env.vaultOut) fun vault =>
  sbind (sinsert "vault" vault) fun _ =>
  sbind (allow_registrationS env.cwd mint2022) fun _ =>
  sbind (allow_registrationS env.cwd mint) fun _ =>
  sbind (create_ticketS env.cwd mint2022 wallet_address env.ticketOut2022) fun ticket2022 =>
  sbind (sinsert "ticket_account_2022" ticket2022) fun _ =>
  sbind (create_ticketS env.cwd mint wallet_address env.ticketOut) fun ticket =>
  sbind (sinsert "ticket_account" ticket) fun _ =>
  sbind (create_token_accountS env.cwd mint2022 ticket2022 (some 2022) env.ttaOut2022)
    fun tta2022 =>
  sbind (sinsert "ticket_token_account_2022" tta2022) fun _ =>
  sbind (create_token_accountS env.cwd mint ticket none env.ttaOut) fun tta =>
  sbind (sinsert "ticket_token_account" tta) fun _ =>
  sbind (exportAllS env.cwd) fun _ =>
  sbind (semit [Event.printed "Cleaning up keypairs..."]) fun _ =>
  sbind (os_removeS env.absentAtCleanup (keypairPath env.cwd "mint")) fun _ =>
  sbind (os_removeS env.absentAtCleanup (keypairPath env.cwd "mint_2022")) fun _ =>
  sbind (os_removeS env.absentAtCleanup (keypairPath env.cwd "whitelist")) fun _ =>
  sbind (os_removeS env.absentAtCleanup (keypairPath env.cwd "payer")) fun _ =>
  sbind (semit [Event.printed "Keypairs removed",
                Event.printed "Stopping solana-test-validator",
                Event.ranCommand ["pkill", "-f", "-9", "solana-test-validator"],
                Event.printed "Starting tests...",
                Event.ranCommand ["cargo", "test", "--manifest-path",
                  env.cwd ++ "/program/Cargo.toml"],
                Event.printed "Cargo tests complete"]) fun _ =>
  promptS env.promptInput

def runScript (env : Env) : Except Halt Unit × RunState := mainScript env initState

/-! ### Trace projections -/

/-- The cleanup-relevant events of a trace, in order: file removals and the
pkill invocation. -/
def cleanupTrace (evs : List Event) : List Event :=
  evs.filter fun e =>
    match e with
    | Event.removedFile _ => true
    | Event.ranCommand c => c.head? == some "pkill"
    | _ => false

/-- The paths removed by os.remove, in order. -/
def removedPaths (evs : List Event) : List String :=
  evs.filterMap fun e =>
    match e with
    | Event.removedFile p => some p
    | _ => none

/-- The outfiles of the solana-keygen invocations, in order: one per generated
identity file. -/
def keygenOutfiles (evs : List Event) : List String :=
  evs.filterMap fun e =>
    match e with
    | Event.spawned c => if c.head? == some "solana-keygen" then c.getLast? else none
    | _ => none

/-- Build and deploy invocations (cargo and solana program commands). -/
def is_build_or_deploy (e : Event) : Bool :=
  match e with
  | Event.ranCommand c => c.head? == some "cargo" || c.take 2 == ["solana", "program"]
  | _ => false

/-- The registry keys inserted by a complete run, in insertion order. -/
def registry_keys : List String :=
  ["mint_2022", "mint",
   "wallet_token_account_2022", "wallet_token_account",
   "whitelist_2022", "whitelist",
   "vault_2022", "vault",
   "ticket_account_2022", "ticket_account",
   "ticket_token_account_2022", "ticket_token_account"]

/-! ### Concrete environments used by witnesses and counterexamples -/

/-- A run in which every external command behaves: the validator stays alive,
every parsed stdout has the expected shape, and all identity files exist at
cleanup time. -/
def envOk : Env :=
  { cwd := "/w"
    addrTestPid := "TestPid1111\n"
    addrPayer := "Payer1111\n"
    validator := { alive := true, stdoutText := "", stderrText := "" }
    mintOut2022 := "Creating token M22 under program " ++ TOKEN_2022 ++ "\nSignature: s1"
    mintOut := "Creating token M1 under program " ++ TOKEN ++ "\nSignature: s2"
    wtaOut2022 := "Creating account W22\nSignature: s3"
    wtaOut := "Creating account W1\nSignature: s4"
    wlOut2022 := "Initialised whitelist: WL22\nSignature: s5"
    wlOut := "Initialised whitelist: WL1\nSignature: s6"
    vaultOut2022 := "Creating account V22\nSignature: s7"
    vaultOut := "Creating account V1\nSignature: s8"
    ticketOut2022 := "Ticket T22"
    ticketOut := "Ticket T1"
    ttaOut2022 := "Creating account TT22\nSignature: s9"
    ttaOut := "Creating account TT1\nSignature: s10"
    absentAtCleanup := []
    promptInput := "n" }

/-- The same world except that the validator process has already died when the
script polls it. -/
def envFail : Env :=
  { envOk with validator := { alive := false, stdoutText := "", stderrText := "boom" } }

/-! ## Shape of a completed run

Any run that reaches the end (outcome Except.ok) must have taken the alive
branch of the validator poll, the ok branch of all twelve parses and the
present branch of all four removals; this determines the registry and the
cleanup-relevant part of the trace. -/

set_option maxHeartbeats 2000000 in
theorem run_ok_shape (env : Env) (st : RunState)
    (h : runScript env = (Except.ok (), st)) :
    ∃ m22 m wta22 wta wl22 wl v22 v t22 t tta22 tta : String,
      st.accounts =
        [("mint_2022", m22), ("mint", m),
         ("wallet_token_account_2022", wta22), ("wallet_token_account", wta),
         ("whitelist_2022", wl22), ("whitelist", wl),
         ("vault_2022", v22), ("vault", v),
         ("ticket_account_2022", t22), ("ticket_account", t),
         ("ticket_token_account_2022", tta22), ("ticket_token_account", tta)] ∧
      cleanupTrace st.events =
        [Event.removedFile (keypairPath env.cwd "mint"),
         Event.removedFile (keypairPath env.cwd "mint_2022"),
         Event.removedFile (keypairPath env.cwd "whitelist"),
         Event.removedFile (keypairPath env.cwd "payer"),
         Event.ranCommand ["pkill", "-f", "-9", "solana-test-validator"]] ∧
      removedPaths st.events =
        [keypairPath env.cwd "mint", keypairPath env.cwd "mint_2022",
         keypairPath env.cwd "whitelist", keypairPath env.cwd "payer"] ∧
      keygenOutfiles st.events =
        [keypairPath env.cwd "test-pid", keypairPath env.cwd "payer",
         keypairPath env.cwd "mint_2022", keypairPath env.cwd "mint",
         keypairPath env.cwd "whitelist"] := by
  unfold runScript mainScript at h
  simp only [sbind, semit, spure, sparse, sinsert, shalt, os_removeS, exportAllS,
    create_keypairS, get_addressS, install_programS, start_validatorS, create_mintS,
    create_token_accountS, create_whitelistS, create_ticketS, allow_registrationS,
    promptS, start_validator, gate_always_true] at h
  cases hv : env.validator.alive
  · rw [hv] at h
    dsimp only at h
    exact Except.noConfusion (congrArg Prod.fst h)
  rw [hv] at h
  dsimp only at h
  rcases h1 : address_extract env.mintOut2022 with e1 | m22
  · rw [h1] at h
    dsimp only at h
    exact Except.noConfusion (congrArg Prod.fst h)
  rw [h1] at h
  dsimp only at h
  rcases h2 : address_extract env.mintOut with e2 | m
  · rw [h2] at h
    dsimp only at h
    exact Except.noConfusion (congrArg Prod.fst h)
  rw [h2] at h
  dsimp only at h
  rcases h3 : address_extract env.wtaOut2022 with e3 | wta22
  · rw [h3] at h
    dsimp only at h
    exact Except.noConfusion (congrArg Prod.fst h)
  rw [h3] at h
  dsimp only at h
  rcases h4 : address_extract env.wtaOut with e4 | wta
  · rw [h4] at h
    dsimp only at h
    exact Except.noConfusion (congrArg Prod.fst h)
  rw [h4] at h
  dsimp only at h
  rcases h5 : address_extract env.wlOut2022 with e5 | wl22
  · rw [h5] at h
    dsimp only at h
    exact Except.noConfusion (congrArg Prod.fst h)
  rw [h5] at h
  dsimp only at h
  rcases h6 : address_extract env.wlOut with e6 | wl
  · rw [h6] at h
    dsimp only at h
    exact Except.noConfusion (congrArg Prod.fst h)
  rw [h6] at h
  dsimp only at h
  rcases h7 : address_extract env.vaultOut2022 with e7 | v22
  · rw [h7] at h
    dsimp only at h
    exact Except.noConfusion (congrArg Prod.fst h)
  rw [h7] at h
  dsimp only at h
  rcases h8 : address_extract env.vaultOut with e8 | v
  · rw [h8] at h
    dsimp only at h
    exact Except.noConfusion (congrArg Prod.fst h)
  rw [h8] at h
  dsimp only at h
  rcases h9 : ticket_extract env.ticketOut2022 with e9 | t22
  · rw [h9] at h
    dsimp only at h
    exact Except.noConfusion (congrArg Prod.fst h)
  rw [h9] at h
  dsimp only at h
  rcases h10 : ticket_extract env.ticketOut with e10 | t
  · rw [h10] at h
    dsimp only at h
    exact Except.noConfusion (congrArg Prod.fst h)
  rw [h10] at h
  dsimp only at h
  rcases h11 : address_extract env.ttaOut2022 with e11 | tta22
  · rw [h11] at h
    dsimp only at h
    exact Except.noConfusion (congrArg Prod.fst h)
  rw [h11] at h
  dsimp only at h
  rcases h12 : address_extract env.ttaOut with e12 | tta
  · rw [h12] at h
    dsimp only at h
    exact Except.noConfusion (congrArg Prod.fst h)
  rw [h12] at h
  dsimp only at h
  cases hc1 : env.absentAtCleanup.contains (keypairPath env.cwd "mint")
  case true =>
    rw [hc1] at h
    dsimp only at h
    exact Except.noConfusion (congrArg Prod.fst h)
  rw [hc1] at h
  dsimp only at h
  cases hc2 : env.absentAtCleanup.contains (keypairPath env.cwd "mint_2022")
  case true =>
    rw [hc2] at h
    dsimp only at h
    exact Except.noConfusion (congrArg Prod.fst h)
  rw [hc2] at h
  dsimp only at h
  cases hc3 : env.absentAtCleanup.contains (keypairPath env.cwd "whitelist")
  case true =>
    rw [hc3] at h
    dsimp only at h
    exact Except.noConfusion (congrArg Prod.fst h)
  rw [hc3] at h
  dsimp only at h
  cases hc4 : env.absentAtCleanup.contains (keypairPath env.cwd "payer")
  case true =>
    rw [hc4] at h
    dsimp only at h
    exact Except.noConfusion (congrArg Prod.fst h)
  rw [hc4] at h
  dsimp only at h
  injection h with hfst hsnd
  subst hsnd
  refine ⟨m22, m, wta22, wta, wl22, wl, v22, v, t22, t, tta22, tta, rfl, ?_, ?_, ?_⟩
  · simp [cleanupTrace, initState, dictInsert, generate_account_binary_command,
      create_mint_command, create_token_account_command, create_whitelist_command,
      create_ticket_command, allow_registration_command, List.set]
  · simp [removedPaths, initState]
  · simp [keygenOutfiles, initState, List.getLast?]

/-! ## String append injectivity, used for key-based file naming -/

theorem string_affix_injective (pre suf : String) :
    Function.Injective fun k => pre ++ k ++ suf := by
  intro a b hab
  have hd : (pre ++ a ++ suf).data = (pre ++ b ++ suf).data := congrArg String.data hab
  simp only [String.data_append] at hd
  exact String.ext (List.append_cancel_left (List.append_cancel_right hd))

/-! ## Claim theorems -/

/-- C2: the address extractor, applied to raw stdout whose first line (after
trimming) has at least three whitespace-delimited tokens, returns the third
whitespace-delimited token of that line, trimmed. -/
theorem address_extract_third_token (raw : String)
    (h : 2 < (pySplitWS ((pySplitNL (pyStrip raw)).headD "")).length) :
    address_extract raw =
      Except.ok (pyStrip ((pySplitWS ((pySplitNL (pyStrip raw)).headD "")).get ⟨2, h⟩)) := by
  unfold address_extract
  rw [List.get?_eq_get h]

/-- C2 witness: the concrete example from the specification. -/
theorem address_extract_third_token_witness :
    address_extract
        "Creating token 7xKXtg2CW87d97TXJSDpbD5jBkheTqA83TZRuJosgAsU\nSigne..." =
      Except.ok "7xKXtg2CW87d97TXJSDpbD5jBkheTqA83TZRuJosgAsU" :=
  (address_extract_third_token _ (by decide)).trans (by decide)

/-- C3 counterexample: the exception raised on malformed output cannot carry
the offending raw text, because inputs with different raw text produce the
very same payload-free error value (Python IndexError carries nothing). -/
theorem extract_error_carries_no_raw_text :
    ¬ ∃ recover : PyExn → String,
        ∀ raw : String, (pySplitWS (pyStrip raw)).length ≤ 1 →
          ∃ e, ticket_extract raw = Except.error e ∧ recover e = raw := by
  rintro ⟨recover, hrec⟩
  obtain ⟨e1, he1, hr1⟩ := hrec "Ticket" (by decide)
  obtain ⟨e2, he2, hr2⟩ := hrec "Creating" (by decide)
  have d1 : ticket_extract "Ticket" = Except.error PyExn.indexError := by decide
  have d2 : ticket_extract "Creating" = Except.error PyExn.indexError := by decide
  rw [d1] at he1
  rw [d2] at he2
  injection he1 with he1e
  injection he2 with he2e
  rw [← he1e] at hr1
  rw [← he2e] at hr2
  exact absurd (hr1.symm.trans hr2) (by decide)

/-- C3 (amended): on input with fewer whitespace tokens than the extractor
requires, extraction fails by raising IndexError (aborting the run) and never
silently returns an identifier; the exception has no payload, so it does not
carry the offending raw text. -/
theorem extract_short_input_errors (raw : String) :
    ((pySplitWS ((pySplitNL (pyStrip raw)).headD "")).length ≤ 2 →
        address_extract raw = Except.error PyExn.indexError) ∧
    ((pySplitWS (pyStrip raw)).length ≤ 1 →
        ticket_extract raw = Except.error PyExn.indexError) := by
  constructor
  · intro hlen
    unfold address_extract
    rw [List.get?_eq_none.mpr hlen]
  · intro hlen
    unfold ticket_extract
    rw [List.get?_eq_none.mpr hlen]

/-- C3 witness: the empty string for the address extractor and a single-token
string for the ticket extractor both raise. -/
theorem extract_short_input_errors_witness :
    address_extract "" = Except.error PyExn.indexError ∧
    ticket_extract "Ticket" = Except.error PyExn.indexError :=
  ⟨(extract_short_input_errors "").1 (by decide),
   (extract_short_input_errors "Ticket").2 (by decide)⟩

/-- C9: every mint- and token-account-creation command carries exactly the
Token2022 program identifier when the variant is 2022 and exactly the legacy
identifier otherwise, in the program-id slot (index 3); the two identifiers
are distinct. -/
theorem variant_selects_program_id (cwd mint_address owner_address : String)
    (token_program : Option Int) :
    (create_mint_command cwd token_program).get? 3 =
      some (if token_program == some 2022 then TOKEN_2022 else TOKEN) ∧
    (create_token_account_command cwd mint_address owner_address token_program).get? 3 =
      some (if token_program == some 2022 then TOKEN_2022 else TOKEN) ∧
    TOKEN_2022 ≠ TOKEN :=
  ⟨rfl, rfl, by decide⟩

/-- C9 witness: the flag values at both variants, for both command kinds. -/
theorem variant_selects_program_id_witness :
    (create_mint_command "/w" (some 2022)).get? 3 = some TOKEN_2022 ∧
    (create_mint_command "/w" none).get? 3 = some TOKEN ∧
    (create_token_account_command "/w" "MintAddr" "OwnerAddr" (some 2022)).get? 3 =
      some TOKEN_2022 ∧
    (create_token_account_command "/w" "MintAddr" "OwnerAddr" none).get? 3 = some TOKEN :=
  ⟨((variant_selects_program_id "/w" "MintAddr" "OwnerAddr" (some 2022)).1).trans (by decide),
   ((variant_selects_program_id "/w" "MintAddr" "OwnerAddr" none).1).trans (by decide),
   ((variant_selects_program_id "/w" "MintAddr" "OwnerAddr" (some 2022)).2.1).trans (by decide),
   ((variant_selects_program_id "/w" "MintAddr" "OwnerAddr" none).2.1).trans (by decide)⟩

/-- C10: for every string typed at the final prompt the gate expression
(validator_tests == "Y") or "y" or "yes" is truthy, so the validator-tests
branch is always taken and the else branch (print Testing completed, exit 0)
is never reached. -/
theorem prompt_gate_always_validator_branch (input : String) (st : RunState) :
    pyTruthy (gateExpr input) = true ∧
    promptS input st =
      (Except.ok (),
        { st with events := st.events ++ [Event.prompted prompt_message] ++
            [Event.printed "Starting validator tests..."] }) := by
  refine ⟨gate_always_true input, ?_⟩
  simp only [promptS, sbind, semit, gate_always_true]

/-- C10 witness: the gate is taken even for "n", "no" and the empty string. -/
theorem prompt_gate_always_validator_branch_witness :
    pyTruthy (gateExpr "n") = true ∧ pyTruthy (gateExpr "no") = true ∧
    pyTruthy (gateExpr "") = true ∧
    promptS "n" initState =
      (Except.ok (),
        { initState with events := initState.events ++ [Event.prompted prompt_message] ++
            [Event.printed "Starting validator tests..."] }) :=
  ⟨(prompt_gate_always_validator_branch "n" initState).1,
   (prompt_gate_always_validator_branch "no" initState).1,
   (prompt_gate_always_validator_branch "" initState).1,
   (prompt_gate_always_validator_branch "n" initState).2⟩

/-- C7 counterexample: on a file without the declare_id! marker, the sed patch
silently leaves every line unchanged and exits with status 0 (which the script
discards); nothing fails loudly and the pipeline proceeds to the build. -/
theorem patch_missing_marker_silent_noop :
    patch_lib_rs "NewPid11111111111111111111111111111111111111"
        ["use solana_program;", "pub mod instruction;"] =
      ["use solana_program;", "pub mod instruction;"] ∧
    sed_exit_status "NewPid11111111111111111111111111111111111111"
        ["use solana_program;", "pub mod instruction;"] = 0 :=
  ⟨by decide, rfl⟩

/-- C7 (amended): the sed patch rewrites every line containing the marker to
the new declaration and leaves every other line unchanged; when no line
matches, the file is left untouched, sed exits 0, and no failure is
signalled before the build. -/
theorem patch_rewrites_marker_lines (program_id : String) (lines : List String) :
    (patch_lib_rs program_id lines).length = lines.length ∧
    (∀ l ∈ lines, strContains l declare_marker = false → sed_c_line program_id l = l) ∧
    (∀ l ∈ lines, strContains l declare_marker = true →
        sed_c_line program_id l = "declare_id!(\"" ++ program_id ++ "\");") ∧
    ((∀ l ∈ lines, strContains l declare_marker = false) →
        patch_lib_rs program_id lines = lines) ∧
    sed_exit_status program_id lines = 0 := by
  refine ⟨List.length_map lines (sed_c_line program_id), ?_, ?_, ?_, rfl⟩
  · intro l _ hl
    simp [sed_c_line, hl]
  · intro l _ hl
    simp [sed_c_line, hl]
  · intro hall
    revert hall
    induction lines with
    | nil => intro _; rfl
    | cons a as ih =>
      intro hall
      have ha : sed_c_line program_id a = a := by
        simp [sed_c_line, hall a (List.mem_cons_self a as)]
      have hrest := ih fun l hl => hall l (List.mem_cons_of_mem a hl)
      simp only [patch_lib_rs, List.map_cons] at hrest ⊢
      rw [ha, hrest]

/-- C7 witness: a marker line is rewritten to embed the new id; a marker-free
file is left unchanged. -/
theorem patch_rewrites_marker_lines_witness :
    sed_c_line "PID111" "declare_id!(\"OLD\");" = "declare_id!(\"PID111\");" ∧
    patch_lib_rs "PID111" ["use solana_program;"] = ["use solana_program;"] :=
  ⟨((patch_rewrites_marker_lines "PID111" ["declare_id!(\"OLD\");"]).2.2.1
      "declare_id!(\"OLD\");" (by decide) (by decide)).trans (by decide),
   (patch_rewrites_marker_lines "PID111" ["use solana_program;"]).2.2.2.1 (by decide)⟩

/-- C5: when the validator has already exited at the poll, start_validator
reports Failed with exit code 1 and the run aborts before any build or deploy
command — but the diagnostic always reads STDOUT: None / STDERR: None, because
Popen redirects both streams to DEVNULL: the process's actual stderr text is
discarded and can never appear in the diagnostic. -/
theorem validator_failure_diag_discards_stderr :
    start_validator
        { alive := false, stdoutText := "", stderrText := "error: bind address in use" } =
      StartResult.failed
        ["Failed to start Solana test validator", "STDOUT: None", "STDERR: None"] 1 ∧
    start_validator
        { alive := false, stdoutText := "", stderrText := "a different stderr text" } =
      start_validator
        { alive := false, stdoutText := "", stderrText := "error: bind address in use" } ∧
    (runScript envFail).1 = Except.error (Halt.exited 1) ∧
    (runScript envFail).2.events.any is_build_or_deploy = false :=
  ⟨rfl, rfl, rfl, by decide⟩

/-- C8: the exporter issues exactly one dump command per registry entry; the
output file of each is named by the logical key inside the fixtures
directory, and distinct keys give distinct files even when several entries
hold the same address. -/
theorem export_one_file_per_entry (cwd : String) (registry : List (String × String)) :
    (export_commands cwd registry).length = registry.length ∧
    (export_commands cwd registry).map output_file_of =
      (registry.map Prod.fst).map (fun k => some (test_path cwd ++ "/" ++ k ++ ".bin")) ∧
    ((registry.map Prod.fst).Nodup →
      ((export_commands cwd registry).map output_file_of).Nodup) := by
  have h2 : (export_commands cwd registry).map output_file_of =
      (registry.map Prod.fst).map (fun k => some (test_path cwd ++ "/" ++ k ++ ".bin")) := by
    unfold export_commands
    rw [List.map_map, List.map_map]
    rfl
  refine ⟨List.length_map registry _, h2, ?_⟩
  intro hkeys
  rw [h2]
  exact hkeys.map
    ((Option.some_injective String).comp (string_affix_injective (test_path cwd ++ "/") ".bin"))

/-- C8 witness: two entries sharing one address still yield two distinct
key-named files. -/
theorem export_one_file_per_entry_witness :
    (export_commands "/w" [("vault", "Addr1"), ("vault_2022", "Addr1")]).map output_file_of =
      [some "/w/program/tests/fixtures/vault.bin",
       some "/w/program/tests/fixtures/vault_2022.bin"] ∧
    (export_commands "/w" [("vault", "Addr1"), ("vault_2022", "Addr1")]).length = 2 ∧
    ((export_commands "/w" [("vault", "Addr1"), ("vault_2022", "Addr1")]).map
        output_file_of).Nodup :=
  ⟨((export_one_file_per_entry "/w" [("vault", "Addr1"), ("vault_2022", "Addr1")]).2.1).trans
      (by decide),
   ((export_one_file_per_entry "/w" [("vault", "Addr1"), ("vault_2022", "Addr1")]).1).trans
      (by decide),
   (export_one_file_per_entry "/w" [("vault", "Addr1"), ("vault_2022", "Addr1")]).2.2
      (by decide)⟩

/-- C1 counterexample: with the validator process dead at the poll, the run
exits with status 1 and the cleanup phase never executes — no identity file is
removed and no pkill is issued; moreover os.remove on an already-absent file
raises FileNotFoundError rather than being idempotent. -/
theorem cleanup_skipped_on_validator_failure :
    (runScript envFail).1 = Except.error (Halt.exited 1) ∧
    cleanupTrace (runScript envFail).2.events = [] ∧
    removedPaths (runScript envFail).2.events = [] ∧
    os_remove [] (keypairPath "/w" "mint") = Except.error PyExn.fileNotFoundError :=
  ⟨rfl, rfl, rfl, by decide⟩

/-- C1 (amended): the cleanup block runs only when every prior step succeeds;
on a completed run it removes exactly the four identity files mint, mint_2022,
whitelist and payer and then pkills the validator, in that order (a failed
step exits first, skipping cleanup, and os.remove is not idempotent). -/
theorem cleanup_on_successful_run (env : Env) (st : RunState)
    (h : runScript env = (Except.ok (), st)) :
    cleanupTrace st.events =
      [Event.removedFile (keypairPath env.cwd "mint"),
       Event.removedFile (keypairPath env.cwd "mint_2022"),
       Event.removedFile (keypairPath env.cwd "whitelist"),
       Event.removedFile (keypairPath env.cwd "payer"),
       Event.ranCommand ["pkill", "-f", "-9", "solana-test-validator"]] := by
  obtain ⟨_, _, _, _, _, _, _, _, _, _, _, _, _, hclean, _, _⟩ := run_ok_shape env st h
  exact hclean

/-- C1 witness: the cleanup trace of a concrete successful run. -/
theorem cleanup_on_successful_run_witness :
    cleanupTrace (runScript envOk).2.events =
      [Event.removedFile (keypairPath envOk.cwd "mint"),
       Event.removedFile (keypairPath envOk.cwd "mint_2022"),
       Event.removedFile (keypairPath envOk.cwd "whitelist"),
       Event.removedFile (keypairPath envOk.cwd "payer"),
       Event.ranCommand ["pkill", "-f", "-9", "solana-test-validator"]] :=
  cleanup_on_successful_run envOk (runScript envOk).2 rfl

/-- C4: a run that completes produces a registry of exactly twelve uniquely
keyed entries: for each variant, one mint, one wallet token account, one
whitelist, one vault, one ticket account and one ticket token account. -/
theorem registry_has_twelve_unique_entries (env : Env) (st : RunState)
    (h : runScript env = (Except.ok (), st)) :
    st.accounts.map Prod.fst = registry_keys ∧
    st.accounts.length = 12 ∧
    (st.accounts.map Prod.fst).Nodup := by
  obtain ⟨m22, m, wta22, wta, wl22, wl, v22, v, t22, t, tta22, tta, hacc, _, _, _⟩ :=
    run_ok_shape env st h
  rw [hacc]
  exact ⟨rfl, rfl, (by decide : registry_keys.Nodup)⟩

/-- C4 witness: the registry of a concrete successful run. -/
theorem registry_has_twelve_unique_entries_witness :
    (runScript envOk).2.accounts.map Prod.fst = registry_keys ∧
    (runScript envOk).2.accounts.length = 12 ∧
    ((runScript envOk).2.accounts.map Prod.fst).Nodup :=
  registry_has_twelve_unique_entries envOk (runScript envOk).2 rfl

/-- C6 (amended): after a fully successful run the payer, the two mint and
the whitelist identity files have been removed, but the program identity file
test-pid.json — generated by the same run and equally holding private key
material — is never removed and persists past the run. -/
theorem removed_keypairs_exclude_program_id (env : Env) (st : RunState)
    (h : runScript env = (Except.ok (), st)) :
    removedPaths st.events =
      [keypairPath env.cwd "mint", keypairPath env.cwd "mint_2022",
       keypairPath env.cwd "whitelist", keypairPath env.cwd "payer"] ∧
    keygenOutfiles st.events =
      [keypairPath env.cwd "test-pid", keypairPath env.cwd "payer",
       keypairPath env.cwd "mint_2022", keypairPath env.cwd "mint",
       keypairPath env.cwd "whitelist"] ∧
    keypairPath env.cwd "test-pid" ∉ removedPaths st.events := by
  obtain ⟨_, _, _, _, _, _, _, _, _, _, _, _, _, _, hrem, hgen⟩ := run_ok_shape env st h
  refine ⟨hrem, hgen, ?_⟩
  rw [hrem]
  intro hmem
  have hinj := string_affix_injective (env.cwd ++ "/") ".json"
  simp only [List.mem_cons, List.not_mem_nil, or_false] at hmem
  rcases hmem with h1 | h1 | h1 | h1
  · exact absurd (hinj h1) (by decide)
  · exact absurd (hinj h1) (by decide)
  · exact absurd (hinj h1) (by decide)
  · exact absurd (hinj h1) (by decide)

/-- C6 counterexample: in a concrete fully successful run the program
identity file test-pid.json is generated but is not among the removed paths,
so its private key material persists after the run. -/
theorem program_id_keypair_persists :
    keypairPath envOk.cwd "test-pid" ∈ keygenOutfiles (runScript envOk).2.events ∧
    keypairPath envOk.cwd "test-pid" ∉ removedPaths (runScript envOk).2.events ∧
    (runScript envOk).1 = Except.ok () :=
  ⟨by decide, by decide, rfl⟩

/-- C6 witness: the removed paths of a concrete successful run, excluding the
program identity file. -/
theorem removed_keypairs_exclude_program_id_witness :
    removedPaths (runScript envOk).2.events =
      [keypairPath envOk.cwd "mint", keypairPath envOk.cwd "mint_2022",
       keypairPath envOk.cwd "whitelist", keypairPath envOk.cwd "payer"] ∧
    keypairPath envOk.cwd "test-pid" ∉ removedPaths (runScript envOk).2.events :=
  ⟨(removed_keypairs_exclude_program_id envOk (runScript envOk).2 rfl).1,
   (removed_keypairs_exclude_program_id envOk (runScript envOk).2 rfl).2.2⟩
